import Mathlib

/-!
# Verification of the Twitter/X → Discord webhook relay

A shallow embedding in Lean 4 of the relay bot (`test_embed.py`, the
current "v7" pipeline, plus the delivery-formatter and provider-chain
variants of `twitter_to_discord.py`, "v4").  Network and filesystem
effects are modelled as oracle inputs (the outcome each call would
produce), so every function of the source becomes a pure Lean function
of its state and oracle.
-/

namespace TwitterToDiscord

/-- The monitored account handle (`USERNAME = "SoJ_Global"` in the source). -/
def USERNAME : String := "SoJ_Global"

/-- Python truthiness of a string: non-empty. -/
def truthy (u : String) : Bool := u ≠ ""

/-! ## String helpers used by `parse_rss_ids`

Python: `re.sub(r'[^0-9]', '', link.text.rstrip('/').split('/')[-1].split('#')[0])`.
-/

/-- Python `s.rstrip('/')`: drop all trailing slash characters. -/
def rstrip_slash (l : List Char) : List Char :=
  (l.reverse.dropWhile (fun c => c == '/')).reverse

/-- Python `s.split(sep)` for a one-character separator, on character
lists (structural recursion so the kernel can evaluate it). -/
def split_on_char (sep : Char) : List Char → List (List Char)
  | [] => [[]]
  | c :: rest =>
    let r := split_on_char sep rest
    if c = sep then [] :: r
    else
      match r with
      | [] => [[c]]
      | g :: gs => (c :: g) :: gs

/-- Python `s.split(sep)[-1]`: last field of the split (split never
returns an empty list, so the default is unreachable). -/
def last_field (sep : Char) (l : List Char) : List Char :=
  ((split_on_char sep l).reverse).headD []

/-- Python `s.split(sep)[0]`: first field of the split. -/
def first_field (sep : Char) (l : List Char) : List Char :=
  (split_on_char sep l).headD []

/-- Python `re.sub(r'[^0-9]', '', s)`: keep only the ASCII digits. -/
def digits_only (l : List Char) : List Char :=
  l.filter Char.isDigit

/-- Python `s.startswith('http')`, evaluated on the character list. -/
def starts_with_http (s : String) : Bool :=
  "http".data.isPrefixOf s.data

/-! ## PostIdentifier Extractor (`parse_rss_ids`, test_embed.py) -/

/-- The per-link identifier candidate of `parse_rss_ids`:
`re.sub(r'[^0-9]', '', link.text.rstrip('/').split('/')[-1].split('#')[0])`. -/
def extract_tweet_id (link : String) : String :=
  String.mk (digits_only (first_field '#' (last_field '/' (rstrip_slash link.data))))

/-- One `<item>` of the RSS document, reduced to what `parse_rss_ids` reads:
the link element's text (`none` models a missing `<link>` element or a
`None` text; `some ""` an empty text — both fail `if link is not None and
link.text`). -/
def item_id (link? : Option String) : Option String :=
  link?.bind fun l =>
    if l = "" then none
    else
      let tweet_id := extract_tweet_id l
      if tweet_id ≠ "" ∧ 5 < tweet_id.length then some tweet_id else none

/-- `TwitterToDiscord.parse_rss_ids` of `test_embed.py`.  The input models
the result of `ET.fromstring`: `none` when XML parsing raises (the
`except` clause returns the ids gathered so far, i.e. `[]`); otherwise the
list of `<item>` link texts, of which the first 10 are scanned. -/
def parse_rss_ids (doc : Option (List (Option String))) : List String :=
  match doc with
  | none => []
  | some items => (items.take 10).filterMap item_id

/-- The tweet-id extraction of v4 `parse_rss` (`twitter_to_discord.py`):
`link_text.split('/')[-1].split('#')[0]` — unlike the v7 extractor it
strips no non-digit characters and checks no length. -/
def extract_tweet_id_v4 (link : String) : String :=
  String.mk (first_field '#' (last_field '/' link.data))

/-- The identifier sequence produced by v4 `parse_rss`
(`twitter_to_discord.py`), reduced to its id extraction: for each of the
first 10 items that has a usable link, take
`link.split('/')[-1].split('#')[0]` and keep it unless it is already in
the seen set.  No digit stripping and no length check is applied. -/
def parse_rss_ids_v4 (seen : Finset String) (doc : Option (List (Option String))) :
    List String :=
  match doc with
  | none => []
  | some items =>
    (items.take 10).filterMap fun l? =>
      l?.bind fun l =>
        let tweet_id := extract_tweet_id_v4 l
        if tweet_id ∈ seen then none else some tweet_id

/-! ## Detail Resolver (`get_tweet_details`, test_embed.py)

The fxtwitter HTTP call is an oracle (`DetailResponse`); the JSON body is
modelled by `FxTweet`/`Media`.  A dict field read with a `''` default
(`videos[0].get('url', '')`) is a `String` where `""` stands for an
absent key; `photo.get('url')` truthiness (absent key or empty string,
both falsy) is likewise modelled by `""`.
-/

structure VideoItem where
  url : String
  thumbnail_url : String
deriving DecidableEq

structure Media where
  photos : List String
  videos : List VideoItem
  gifs : List VideoItem
deriving DecidableEq

structure FxTweet where
  text : String
  media : Media
  created_at : String
  author_name : Option String
deriving DecidableEq

/-- Outcome of `requests.get` on the fxtwitter detail endpoint:
`raised` covers network errors and json-decoding errors; `resp` carries
the status code and, for a JSON body, `data.get('tweet', \x7b\x7d)` with
`none` standing for an absent or empty (falsy) tweet object. -/
inductive DetailResponse
  | raised
  | resp (status : Nat) (tweet : Option FxTweet)
deriving DecidableEq

/-- The tweet dict returned by `get_tweet_details`. -/
structure Tweet where
  id : String
  text : String
  link : String
  images : List String
  video_url : Option String
  timestamp : Option String
  user_name : String
deriving DecidableEq

/-- The video/gif thumbnail backfill:
`thumb = item.get('thumbnail_url', ''); if thumb and not images: images.append(thumb)`. -/
def apply_thumb (images : List String) (v : VideoItem) : List String :=
  if v.thumbnail_url ≠ "" ∧ images = [] then images ++ [v.thumbnail_url] else images

/-- The media-extraction block of `get_tweet_details`: collect truthy photo
urls; if `videos` is non-empty take the first video's url and backfill its
thumbnail when no still image exists; if `gifs` is non-empty and
`video_url` is still falsy (`None` or `''`) do the same with the first
gif.  Returns `(images, video_url)`. -/
def resolve_media (m : Media) : List String × Option String :=
  let images := m.photos.filter truthy
  let s1 : List String × Option String :=
    match m.videos with
    | [] => (images, none)
    | v :: _ => (apply_thumb images v, some v.url)
  match m.gifs with
  | [] => s1
  | g :: _ =>
    if s1.2 = none ∨ s1.2 = some "" then (apply_thumb s1.1 g, some g.url) else s1

/-- `TwitterToDiscord.get_tweet_details` of `test_embed.py`.  `strp` is
the `datetime.strptime`-parse capability (`none` = raises, yielding a
missing timestamp); any exception produces `None` (`raised` case), as
does a non-200 status or a missing tweet object. -/
def get_tweet_details (tid : String) (resp : DetailResponse)
    (strp : String → Option String) : Option Tweet :=
  match resp with
  | .raised => none
  | .resp status tweet? =>
    if status = 200 then
      match tweet? with
      | none => none
      | some tw =>
        let im := resolve_media tw.media
        some { id := tid
             , text := tw.text
             , link := "https://twitter.com/" ++ USERNAME ++ "/status/" ++ tid
             , images := im.1
             , video_url := im.2
             , timestamp := if tw.created_at ≠ "" then strp tw.created_at else none
             , user_name := tw.author_name.getD USERNAME }
    else none

/-! ## Provider Chain -/

/-- Outcome of one method of the v7 chain (`get_tweet_ids`): `raised` when
the method raised an exception (caught by the chain loop), `ids l` when
it returned the id list `l`. -/
inductive AdapterOutcome
  | raised
  | ids (l : List String)
deriving DecidableEq

/-- `TwitterToDiscord.get_tweet_ids` of `test_embed.py`: try each method
in declared order and return the first non-empty list; on an exception or
an empty result move to the next method; if all fail return `[]`. -/
def get_tweet_ids : List AdapterOutcome → List String
  | [] => []
  | .raised :: rest => get_tweet_ids rest
  | .ids l :: rest => if l = [] then get_tweet_ids rest else l

/-- `get_tweet_ids` instrumented with the number of methods invoked. -/
def get_tweet_ids_trace : List AdapterOutcome → List String × Nat
  | [] => ([], 0)
  | .raised :: rest =>
    let r := get_tweet_ids_trace rest
    (r.1, r.2 + 1)
  | .ids l :: rest =>
    if l = [] then
      let r := get_tweet_ids_trace rest
      (r.1, r.2 + 1)
    else (l, 1)

/-- An adapter fails when its method raised or returned an empty list. -/
def adapter_fails (o : AdapterOutcome) : Prop :=
  o = AdapterOutcome.raised ∨ o = AdapterOutcome.ids []

/-- Outcome of one mirror request of the v4 chain `fetch_tweets_rss` (and
of the v7 inner chains `try_rsshub`/`try_nitter`, which have the same
shape): an exception, or a status code together with the parse result of
the response body. -/
inductive FetchOutcome (α : Type)
  | raised
  | resp (status : Nat) (parsed : List α)
deriving DecidableEq

/-- `TwitterToDiscord.fetch_tweets_rss` of `twitter_to_discord.py`,
instrumented with the number of instances contacted: a 200 status whose
body parses to a non-empty list is returned at once; any exception,
non-200 status or empty parse advances to the next instance; exhaustion
returns `[]`. -/
def fetch_tweets_rss_trace {α : Type} [DecidableEq α] : List (FetchOutcome α) → List α × Nat
  | [] => ([], 0)
  | .raised :: rest =>
    let r := fetch_tweets_rss_trace rest
    (r.1, r.2 + 1)
  | .resp status parsed :: rest =>
    if status = 200 ∧ parsed ≠ [] then (parsed, 1)
    else
      let r := fetch_tweets_rss_trace rest
      (r.1, r.2 + 1)

/-- A mirror instance fails when its request raised, returned a non-200
status, or its body parsed to an empty list. -/
def instance_fails {α : Type} (o : FetchOutcome α) : Prop :=
  match o with
  | .raised => True
  | .resp status parsed => status ≠ 200 ∨ parsed = []

/-! ## Delivery Formatter

`Embed` models one element of the webhook payload's `embeds` array; a
field absent from the JSON object is `none`.
-/

structure Embed where
  title : Option String := none
  description : Option String := none
  url : Option String := none
  color : Option Nat := none
  author_name : Option String := none
  author_url : Option String := none
  author_icon : Option String := none
  footer_text : Option String := none
  footer_icon : Option String := none
  timestamp : Option String := none
  image : Option String := none
deriving DecidableEq

/-- The body text built by v7 `send_to_discord`: when the video url is
truthy a clickable "watch video" marker pointing at the canonical link is
appended. -/
def v7_body_text (t : Tweet) : String :=
  match t.video_url with
  | some v =>
    if v ≠ "" then t.text ++ "\n\n🎬 **[Click to watch video](" ++ t.link ++ ")**"
    else t.text
  | none => t.text

/-- The main embed of v7 `send_to_discord`: title, body truncated to 4096
characters, canonical url, color, author and footer blocks, the timestamp
when truthy, and the first image when any image exists. -/
def v7_main_embed (t : Tweet) : Embed :=
  { title := some ("New post from @" ++ USERNAME)
  , description := some (String.mk ((v7_body_text t).data.take 4096))
  , url := some t.link
  , color := some 1942002
  , author_name := some (t.user_name ++ " (@" ++ USERNAME ++ ")")
  , author_url := some ("https://twitter.com/" ++ USERNAME)
  , author_icon := some "https://abs.twimg.com/icons/apple-touch-icon-192x192.png"
  , footer_text := some "Twitter/X"
  , footer_icon := some "https://abs.twimg.com/icons/apple-touch-icon-192x192.png"
  , timestamp := t.timestamp.bind (fun ts => if truthy ts then some ts else none)
  , image := match t.images with | [] => none | i :: _ => some i }

/-- The loop `for img in images[1:4]: if img: embeds.append(...)` of v7
`send_to_discord`: one minimal embed per truthy extra image, sharing the
canonical link. -/
def v7_extra_embeds (t : Tweet) : List Embed :=
  ((t.images.drop 1).take 3).filterMap fun img =>
    if truthy img then some { url := some t.link, image := some img } else none

/-- The `embeds` array of the webhook payload built by v7
`send_to_discord` (`\x7b"embeds": embeds[:10]\x7d`). -/
def send_to_discord_embeds (t : Tweet) : List Embed :=
  (v7_main_embed t :: v7_extra_embeds t).take 10

/-- The tweet dict built by v4 `parse_rss` and consumed by the v4
formatter. -/
structure TweetV4 where
  id : String
  text : String
  created_at : String
  user_name : String
  user_screen_name : String
  link : String
  images : List String
deriving DecidableEq

/-- `create_discord_embed` of `twitter_to_discord.py`; `pd` is the
`email.utils.parsedate_to_datetime`-then-`isoformat` capability (`none` =
parse failure, leaving the timestamp absent).  An empty text is replaced
by the placeholder `"No text content"`; the first image is attached only
when it starts with `http`. -/
def create_discord_embed (pd : String → Option String) (t : TweetV4) : Embed :=
  { title := some ("New post from @" ++ t.user_screen_name)
  , description := some (if truthy t.text then String.mk (t.text.data.take 4096)
                         else "No text content")
  , url := some t.link
  , color := some 1942002
  , author_name := some (t.user_name ++ " (@" ++ t.user_screen_name ++ ")")
  , author_url := some ("https://twitter.com/" ++ t.user_screen_name)
  , author_icon := some "https://abs.twimg.com/icons/apple-touch-icon-192x192.png"
  , footer_text := some "Twitter/X"
  , footer_icon := some "https://abs.twimg.com/icons/apple-touch-icon-192x192.png"
  , timestamp := (if truthy t.created_at then pd t.created_at else none).bind
      (fun ts => if truthy ts then some ts else none)
  , image := match t.images with
      | [] => none
      | first :: _ => if starts_with_http first then some first else none }

/-- `create_additional_image_embeds` of `twitter_to_discord.py`: when
more than one image exists, one minimal embed per `http`-prefixed image
among `images[1:4]`, sharing the canonical link. -/
def create_additional_image_embeds (t : TweetV4) : List Embed :=
  if 1 < t.images.length then
    ((t.images.drop 1).take 3).filterMap fun img =>
      if starts_with_http img then some { url := some t.link, image := some img } else none
  else []

/-- The `embeds` array of the webhook payload built by v4
`send_to_discord`: the main embed plus the additional image embeds,
capped at 10. -/
def send_to_discord_embeds_v4 (pd : String → Option String) (t : TweetV4) : List Embed :=
  (create_discord_embed pd t :: create_additional_image_embeds t).take 10

/-! ## Seen-Set Store -/

/-- `load_seen_tweets`: the file oracle is `none` when the file does not
exist, `some none` when opening or JSON-parsing raises (the `except`
clause returns an empty set), and `some (some data)` for a parsed JSON
list, turned into a set. -/
def load_seen_tweets (file : Option (Option (List String))) : Finset String :=
  match file with
  | none => ∅
  | some none => ∅
  | some (some data) => data.toFinset

/-- Outcome of the `open`/`json.dump` call inside `save_seen_tweets`. -/
inductive WriteOutcome
  | ok
  | failed (msg : String)
deriving DecidableEq

/-- `save_seen_tweets`: writes `list(self.seen_tweets)` to the state
file (the file content is modelled as the set it encodes, the JSON array
order being immaterial); any exception is caught and only warned about.
Returns the file content after the call, the in-memory seen set after
the call, and the exception propagated to the caller (always `none`: the
`except` clause swallows it). -/
def save_seen_tweets (seen : Finset String) (fileBefore : Option (Finset String))
    (w : WriteOutcome) : Option (Finset String) × Finset String × Option String :=
  match w with
  | .ok => (some seen, seen, none)
  | .failed _ => (fileBefore, seen, none)

/-! ## Reconciliation Loop (`run`, test_embed.py) -/

/-- The bot's mutable state: the seen set and the first-run flag
(`self.seen_tweets`, `self.first_run`). -/
structure BotState where
  seen : Finset String
  first_run : Bool
deriving DecidableEq

/-- `__init__`: load the seen set and set
`self.first_run = len(self.seen_tweets) == 0`. -/
def init_state (file : Option (Option (List String))) : BotState :=
  let seen := load_seen_tweets file
  { seen := seen, first_run := seen.card == 0 }

/-- Observable actions of one cycle, for stating trace properties:
a bootstrap (mark-all-seen) pass, a Detail Resolver call, a webhook send
with its payload and outcome, and a persist of the seen set. -/
inductive Event
  | bootstrap (ids : List String)
  | resolveCall (id : String)
  | send (id : String) (payload : List Embed) (ok : Bool)
  | persist
deriving DecidableEq

/-- The oracle for one cycle: the chain methods' outcomes, the detail
endpoint's response per id, the timestamp-parse capability, and the
webhook's accept/reject answer per id. -/
structure CycleInput where
  adapters : List AdapterOutcome
  details : String → DetailResponse
  strp : String → Option String
  send_ok : String → Bool

/-- One iteration of the per-id delivery loop of `run`: resolve the id;
when a tweet came back, send it (the boolean result of `send_to_discord`
is ignored); in both branches add the id to the seen set and persist. -/
def deliver_one (inp : CycleInput) (seen : Finset String) (tid : String) :
    Finset String × List Event :=
  match get_tweet_details tid (inp.details tid) inp.strp with
  | some tw =>
    (insert tid seen,
     [Event.resolveCall tid,
      Event.send tid (send_to_discord_embeds tw) (inp.send_ok tid),
      Event.persist])
  | none => (insert tid seen, [Event.resolveCall tid, Event.persist])

/-- The `for tweet_id in reversed(new_ids)` loop of `run` (already fed
the reversed list). -/
def deliver_loop (inp : CycleInput) (seen : Finset String) :
    List String → Finset String × List Event
  | [] => (seen, [])
  | tid :: rest =>
    let r1 := deliver_one inp seen tid
    let r2 := deliver_loop inp r1.1 rest
    (r2.1, r1.2 ++ r2.2)

/-- One cycle of `run` (one iteration of the `while True` body), given
this cycle's oracle: fetch ids; if none, do nothing; on the first run
mark every fetched id as seen and persist without resolving or sending;
otherwise deliver the unseen ids oldest-first. -/
def runCycle (s : BotState) (inp : CycleInput) : BotState × List Event :=
  let tweet_ids := get_tweet_ids inp.adapters
  if tweet_ids = [] then (s, [])
  else
    let new_ids := tweet_ids.filter (fun tid => decide (tid ∉ s.seen))
    if s.first_run then
      ({ seen := tweet_ids.foldl (fun acc tid => insert tid acc) s.seen, first_run := false },
       [Event.bootstrap tweet_ids, Event.persist])
    else if new_ids = [] then (s, [])
    else
      let r := deliver_loop inp s.seen new_ids.reverse
      ({ seen := r.1, first_run := s.first_run }, r.2)

/-- A whole run: one cycle per oracle in the list, threading the state
and concatenating the event traces. -/
def run_cycles (s : BotState) : List CycleInput → BotState × List Event
  | [] => (s, [])
  | inp :: rest =>
    let r1 := runCycle s inp
    let r2 := run_cycles r1.1 rest
    (r2.1, r1.2 ++ r2.2)

/-- Recogniser for bootstrap events. -/
def is_bootstrap : Event → Bool
  | .bootstrap _ => true
  | _ => false

/-! ## Reconciliation Loop (`run`, twitter_to_discord.py)

The v4 loop differs from v7: `fetch_tweets_rss` returns whole tweet
dicts (no Detail Resolver exists), and the seen-set update is guarded by
`if self.send_to_discord(tweet):` — a failed send does not mark the id.
-/

/-- The oracle for one v4 cycle: the tweets `fetch_tweets_rss` returned,
the timestamp-parse capability of the formatter, and the webhook's
accept/reject answer per tweet (the boolean `send_to_discord` returns). -/
structure CycleInputV4 where
  fetched : List TweetV4
  pd : String → Option String
  send_ok : TweetV4 → Bool

/-- One iteration of the v4 per-tweet loop:
`if self.send_to_discord(tweet): self.seen_tweets.add(...); self.save_seen_tweets()` —
on a failed send the id is neither added nor persisted. -/
def deliver_one_v4 (inp : CycleInputV4) (seen : Finset String) (t : TweetV4) :
    Finset String × List Event :=
  if inp.send_ok t then
    (insert t.id seen,
     [Event.send t.id (send_to_discord_embeds_v4 inp.pd t) true, Event.persist])
  else
    (seen, [Event.send t.id (send_to_discord_embeds_v4 inp.pd t) false])

/-- The `for i, tweet in enumerate(new_tweets, 1)` loop of v4 `run`. -/
def deliver_loop_v4 (inp : CycleInputV4) (seen : Finset String) :
    List TweetV4 → Finset String × List Event
  | [] => (seen, [])
  | t :: rest =>
    let r1 := deliver_one_v4 inp seen t
    let r2 := deliver_loop_v4 inp r1.1 rest
    (r2.1, r1.2 ++ r2.2)

/-- One cycle of v4 `run` (`twitter_to_discord.py`): fetch tweets; if
none, do nothing; on the first run mark all as seen and persist;
otherwise collect the unseen tweets of `reversed(tweets)` with truthy
ids and deliver them, marking and persisting only on a successful send. -/
def runCycleV4 (s : BotState) (inp : CycleInputV4) : BotState × List Event :=
  if inp.fetched = [] then (s, [])
  else if s.first_run then
    ({ seen := inp.fetched.foldl (fun acc t => insert t.id acc) s.seen, first_run := false },
     [Event.bootstrap (inp.fetched.map TweetV4.id), Event.persist])
  else
    let new_tweets := inp.fetched.reverse.filter
      (fun t => truthy t.id && decide (t.id ∉ s.seen))
    if new_tweets = [] then (s, [])
    else
      let r := deliver_loop_v4 inp s.seen new_tweets
      ({ seen := r.1, first_run := s.first_run }, r.2)

/-! ## Concrete inputs used by the witness theorems -/

def twC4 : FxTweet :=
  { text := "hello"
  , media := { photos := ["", ""]
             , videos := [{ url := "https://v.mp4", thumbnail_url := "https://thumb.jpg" }]
             , gifs := [] }
  , created_at := ""
  , author_name := none }

def inpW : CycleInput :=
  { adapters := [AdapterOutcome.ids ["3333333333333", "1111111111111"]]
  , details := fun _ => DetailResponse.resp 200 (some twC4)
  , strp := fun _ => none
  , send_ok := fun _ => false }

def stateW : BotState :=
  { seen := {"1111111111111"}, first_run := false }

def stateW0 : BotState :=
  { seen := ∅, first_run := true }

def tweetW5 : Tweet :=
  { id := "1234567890"
  , text := "five images"
  , link := "https://twitter.com/SoJ_Global/status/1234567890"
  , images := ["https://a.jpg", "https://b.jpg", "https://c.jpg", "https://d.jpg", "https://e.jpg"]
  , video_url := none
  , timestamp := none
  , user_name := "Sword of Justice" }

def tweetV4W5 : TweetV4 :=
  { id := "1234567890"
  , text := "five images"
  , created_at := ""
  , user_name := "Soj Global"
  , user_screen_name := "SoJ_Global"
  , link := "https://twitter.com/SoJ_Global/status/1234567890"
  , images := ["https://a.jpg", "https://b.jpg", "https://c.jpg", "https://d.jpg", "https://e.jpg"] }

def tweetW0 : Tweet :=
  { id := "1234567890"
  , text := ""
  , link := "https://twitter.com/SoJ_Global/status/1234567890"
  , images := []
  , video_url := none
  , timestamp := none
  , user_name := "Sword of Justice" }

def tweetV4W0 : TweetV4 :=
  { id := "1234567890"
  , text := ""
  , created_at := ""
  , user_name := "Soj Global"
  , user_screen_name := "SoJ_Global"
  , link := "https://twitter.com/SoJ_Global/status/1234567890"
  , images := [] }

def tweetV4New : TweetV4 :=
  { id := "3333333333333"
  , text := "new post"
  , created_at := ""
  , user_name := "Soj Global"
  , user_screen_name := "SoJ_Global"
  , link := "https://twitter.com/SoJ_Global/status/3333333333333"
  , images := [] }

def inpWV4 : CycleInputV4 :=
  { fetched := [tweetV4New]
  , pd := fun _ => none
  , send_ok := fun _ => false }

/-! ## Theorems -/

/-- Every string built from `digits_only` output consists of digits only. -/
theorem digits_only_all_digits (l : List Char) :
    (String.mk (digits_only l)).data.all Char.isDigit = true := by
  simp only [digits_only, List.all_eq_true]
  intro c hc
  exact (List.mem_filter.mp hc).2

/-- Every identifier emitted by the v7 RSS identifier extractor
`parse_rss_ids` is all-digits and has length greater than 5; consequently
any candidate whose digit-stripped form has length at most 5 (in
particular one containing letters that reduce it below the bound) is
excluded from the output. -/
theorem parse_rss_ids_digits_gt5 (doc : Option (List (Option String))) (tid : String)
    (h : tid ∈ parse_rss_ids doc) :
    tid.data.all Char.isDigit = true ∧ 5 < tid.length := by
  match doc with
  | none => simp [parse_rss_ids] at h
  | some items =>
    simp only [parse_rss_ids, List.mem_filterMap] at h
    obtain ⟨l?, _, hid⟩ := h
    match l? with
    | none => simp [item_id] at hid
    | some l =>
      simp only [item_id, Option.some_bind] at hid
      split at hid
      next => exact absurd hid (by simp)
      next =>
        split at hid
        next hcond =>
          obtain rfl := Option.some.inj hid
          exact ⟨digits_only_all_digits _, hcond.2⟩
        next => exact absurd hid (by simp)

theorem parse_rss_ids_digits_gt5_witness :
    "1234567890" ∈ parse_rss_ids
        (some [some "https://nitter.net/SoJ_Global/status/1234567890#m"]) ∧
    ("1234567890".data.all Char.isDigit = true ∧ 5 < "1234567890".length) :=
  ⟨by decide,
   parse_rss_ids_digits_gt5
     (some [some "https://nitter.net/SoJ_Global/status/1234567890#m"])
     "1234567890" (by decide)⟩

/-- When no truthy photo url exists and the first video has a known
thumbnail, the resolved images are exactly that thumbnail. -/
theorem resolve_media_video_thumb (m : Media) (v : VideoItem) (vs : List VideoItem)
    (hp : m.photos.filter truthy = []) (hv : m.videos = v :: vs)
    (ht : v.thumbnail_url ≠ "") : (resolve_media m).1 = [v.thumbnail_url] := by
  rcases m with ⟨photos, videos, gifs⟩
  simp only at hp hv
  subst hv
  simp only [resolve_media, hp]
  have h1 : apply_thumb [] v = [v.thumbnail_url] := by simp [apply_thumb, ht]
  cases gifs with
  | nil => simpa using h1
  | cons g gs =>
    simp only
    rw [h1]
    split
    next => simp [apply_thumb]
    next => rfl

/-- When no truthy photo url exists, no video is present, and the first
gif has a known thumbnail, the resolved images are exactly that thumbnail. -/
theorem resolve_media_gif_thumb (m : Media) (g : VideoItem) (gs : List VideoItem)
    (hp : m.photos.filter truthy = []) (hv : m.videos = [])
    (hg : m.gifs = g :: gs) (ht : g.thumbnail_url ≠ "") :
    (resolve_media m).1 = [g.thumbnail_url] := by
  rcases m with ⟨photos, videos, gifs⟩
  simp only at hp hv hg
  subst hv; subst hg
  simp [resolve_media, hp, apply_thumb, ht]

/-- When at least one truthy photo url exists, neither the video nor the
gif branch appends a thumbnail: the resolved images are the photo urls. -/
theorem resolve_media_photos (m : Media)
    (hp : m.photos.filter truthy ≠ []) :
    (resolve_media m).1 = m.photos.filter truthy := by
  rcases m with ⟨photos, videos, gifs⟩
  simp only at hp ⊢
  have happly : ∀ v : VideoItem, apply_thumb (photos.filter truthy) v =
      photos.filter truthy := by
    intro v
    simp [apply_thumb, hp]
  cases videos with
  | nil =>
    cases gifs with
    | nil => simp [resolve_media]
    | cons g gs => simp [resolve_media, happly]
  | cons v vs =>
    cases gifs with
    | nil => simp [resolve_media, happly]
    | cons g gs =>
      simp only [resolve_media, happly]
      split
      next => simp [happly]
      next => rfl

/-- C4: for a 200 response whose tweet has no truthy still-image url, the
Detail Resolver returns a record whose images list is exactly the first
video's thumbnail (or, when there is no video, the first gif's
thumbnail); when at least one still image exists, the images list is the
still images and no thumbnail is appended. -/
theorem get_tweet_details_thumbnail_policy (tid : String) (strp : String → Option String)
    (tw : FxTweet) :
    (tw.media.photos.filter truthy = [] →
      (∀ v vs, tw.media.videos = v :: vs → v.thumbnail_url ≠ "" →
        ∃ r, get_tweet_details tid (DetailResponse.resp 200 (some tw)) strp = some r ∧
          r.images = [v.thumbnail_url]) ∧
      (∀ g gs, tw.media.videos = [] → tw.media.gifs = g :: gs → g.thumbnail_url ≠ "" →
        ∃ r, get_tweet_details tid (DetailResponse.resp 200 (some tw)) strp = some r ∧
          r.images = [g.thumbnail_url])) ∧
    (tw.media.photos.filter truthy ≠ [] →
      ∃ r, get_tweet_details tid (DetailResponse.resp 200 (some tw)) strp = some r ∧
        r.images = tw.media.photos.filter truthy) := by
  refine ⟨fun hp => ⟨fun v vs hv ht => ⟨_, rfl, ?_⟩, fun g gs hv hg ht => ⟨_, rfl, ?_⟩⟩,
    fun hp => ⟨_, rfl, ?_⟩⟩
  · exact resolve_media_video_thumb tw.media v vs hp hv ht
  · exact resolve_media_gif_thumb tw.media g gs hp hv hg ht
  · exact resolve_media_photos tw.media hp

theorem get_tweet_details_thumbnail_policy_witness :
    twC4.media.photos.filter truthy = [] ∧
    twC4.media.videos = { url := "https://v.mp4", thumbnail_url := "https://thumb.jpg" } :: [] ∧
    (∃ r, get_tweet_details "1234567890" (DetailResponse.resp 200 (some twC4))
        (fun _ => none) = some r ∧
      r.images = [VideoItem.thumbnail_url
        { url := "https://v.mp4", thumbnail_url := "https://thumb.jpg" }]) :=
  ⟨by decide, rfl,
   ((get_tweet_details_thumbnail_policy "1234567890" (fun _ => none) twC4).1
      (by decide)).1
     { url := "https://v.mp4", thumbnail_url := "https://thumb.jpg" } [] rfl (by decide)⟩

/-- `get_tweet_ids` is the first component of its instrumented variant. -/
theorem get_tweet_ids_eq_trace (outs : List AdapterOutcome) :
    get_tweet_ids outs = (get_tweet_ids_trace outs).1 := by
  induction outs with
  | nil => rfl
  | cons o rest ih =>
    cases o with
    | raised => simpa [get_tweet_ids, get_tweet_ids_trace] using ih
    | ids l =>
      by_cases hl : l = []
      · simpa [get_tweet_ids, get_tweet_ids_trace, hl] using ih
      · simp [get_tweet_ids, get_tweet_ids_trace, hl]

/-- When every method of the chain fails, `get_tweet_ids` returns the
empty list after invoking all of them. -/
theorem get_tweet_ids_trace_all_fail (outs : List AdapterOutcome)
    (h : ∀ o ∈ outs, adapter_fails o) :
    get_tweet_ids_trace outs = ([], outs.length) := by
  induction outs with
  | nil => rfl
  | cons o rest ih =>
    have ho := h o (List.mem_cons_self o rest)
    have hrest : ∀ o' ∈ rest, adapter_fails o' :=
      fun o' ho' => h o' (List.mem_cons_of_mem _ ho')
    rcases ho with rfl | rfl
    · simp [get_tweet_ids_trace, ih hrest]
    · simp [get_tweet_ids_trace, ih hrest]

/-- The first method returning a non-empty list wins: its result is
returned and no later method is invoked. -/
theorem get_tweet_ids_trace_first (pre post : List AdapterOutcome) (l : List String)
    (hpre : ∀ o ∈ pre, adapter_fails o) (hl : l ≠ []) :
    get_tweet_ids_trace (pre ++ AdapterOutcome.ids l :: post) = (l, pre.length + 1) := by
  induction pre with
  | nil => simp [get_tweet_ids_trace, hl]
  | cons o rest ih =>
    have ho := hpre o (List.mem_cons_self o rest)
    have hrest : ∀ o' ∈ rest, adapter_fails o' :=
      fun o' ho' => hpre o' (List.mem_cons_of_mem _ ho')
    rcases ho with rfl | rfl
    · simp [get_tweet_ids_trace, ih hrest]
    · simp [get_tweet_ids_trace, ih hrest]

/-- When every mirror instance fails, the v4 chain returns the empty list
after contacting all of them. -/
theorem fetch_trace_all_fail {α : Type} [DecidableEq α] (outs : List (FetchOutcome α))
    (h : ∀ o ∈ outs, instance_fails o) :
    fetch_tweets_rss_trace outs = ([], outs.length) := by
  induction outs with
  | nil => rfl
  | cons o rest ih =>
    have ho := h o (List.mem_cons_self o rest)
    have hrest : ∀ o' ∈ rest, instance_fails o' :=
      fun o' ho' => h o' (List.mem_cons_of_mem _ ho')
    cases o with
    | raised => simp [fetch_tweets_rss_trace, ih hrest]
    | resp status parsed =>
      have hcond : ¬(status = 200 ∧ parsed ≠ []) := by
        simp only [instance_fails] at ho
        tauto
      simp [fetch_tweets_rss_trace, hcond, ih hrest]

/-- The first 200-status instance with a non-empty parse wins: its result
is returned and no later instance is contacted. -/
theorem fetch_trace_first {α : Type} [DecidableEq α] (pre post : List (FetchOutcome α))
    (l : List α) (hpre : ∀ o ∈ pre, instance_fails o) (hl : l ≠ []) :
    fetch_tweets_rss_trace (pre ++ FetchOutcome.resp 200 l :: post) = (l, pre.length + 1) := by
  induction pre with
  | nil => simp [fetch_tweets_rss_trace, hl]
  | cons o rest ih =>
    have ho := hpre o (List.mem_cons_self o rest)
    have hrest : ∀ o' ∈ rest, instance_fails o' :=
      fun o' ho' => hpre o' (List.mem_cons_of_mem _ ho')
    cases o with
    | raised => simp [fetch_tweets_rss_trace, ih hrest]
    | resp status parsed =>
      have hcond : ¬(status = 200 ∧ parsed ≠ []) := by
        simp only [instance_fails] at ho
        tauto
      simp [fetch_tweets_rss_trace, hcond, ih hrest]

/-- C6: in both chains (v7 methods, v4 mirror instances), the first
adapter producing a successfully parsed non-empty list determines the
result, with no adapter after it invoked; and when every adapter fails
(exception, non-200 status, or empty parse) the chain returns the empty
result instead of raising. -/
theorem provider_chain_first_success :
    (∀ outs, get_tweet_ids outs = (get_tweet_ids_trace outs).1) ∧
    (∀ pre post (l : List String), (∀ o ∈ pre, adapter_fails o) → l ≠ [] →
      get_tweet_ids_trace (pre ++ AdapterOutcome.ids l :: post) = (l, pre.length + 1)) ∧
    (∀ outs, (∀ o ∈ outs, adapter_fails o) →
      get_tweet_ids_trace outs = ([], outs.length)) ∧
    (∀ (pre post : List (FetchOutcome TweetV4)) (l : List TweetV4),
      (∀ o ∈ pre, instance_fails o) → l ≠ [] →
      fetch_tweets_rss_trace (pre ++ FetchOutcome.resp 200 l :: post) = (l, pre.length + 1)) ∧
    (∀ outs : List (FetchOutcome TweetV4), (∀ o ∈ outs, instance_fails o) →
      fetch_tweets_rss_trace outs = ([], outs.length)) :=
  ⟨get_tweet_ids_eq_trace, get_tweet_ids_trace_first, get_tweet_ids_trace_all_fail,
   fetch_trace_first, fetch_trace_all_fail⟩

theorem provider_chain_first_success_witness :
    (∀ o ∈ [AdapterOutcome.raised, AdapterOutcome.ids []], adapter_fails o) ∧
    (["1234567890"] : List String) ≠ [] ∧
    get_tweet_ids_trace ([AdapterOutcome.raised, AdapterOutcome.ids []] ++
      AdapterOutcome.ids ["1234567890"] :: [AdapterOutcome.ids ["9999999999"]]) =
      (["1234567890"], 3) := by
  refine ⟨?_, by decide, ?_⟩
  · simp [adapter_fails]
  · exact provider_chain_first_success.2.1 [AdapterOutcome.raised, AdapterOutcome.ids []]
      [AdapterOutcome.ids ["9999999999"]] ["1234567890"]
      (by simp [adapter_fails]) (by decide)

/-- A list of length at least five starts with five explicit elements. -/
theorem exists_five_of_length {α : Type} (l : List α) (h : 5 ≤ l.length) :
    ∃ a b c d e r, l = a :: b :: c :: d :: e :: r := by
  rcases l with _ | ⟨a, _ | ⟨b, _ | ⟨c, _ | ⟨d, _ | ⟨e, r⟩⟩⟩⟩⟩ <;>
    simp only [List.length_cons, List.length_nil] at h
  · omega
  · omega
  · omega
  · omega
  · omega
  · exact ⟨a, b, c, d, e, r, rfl⟩

/-- C5: a post with five or more image URLs produces a batch of exactly
four messages in both formatters — the primary message carrying the first
image plus three secondary messages for images two to four, each sharing
the canonical link — and the images carried by the batch are exactly the
first four. -/
theorem formatter_four_image_cap (t : Tweet) (pd : String → Option String) (t4 : TweetV4)
    (h5 : 5 ≤ t.images.length) (hne : ∀ u ∈ t.images, truthy u = true)
    (h5v4 : 5 ≤ t4.images.length) (hhttp : ∀ u ∈ t4.images, starts_with_http u = true) :
    ((send_to_discord_embeds t).length = 4 ∧
     (∀ e ∈ (send_to_discord_embeds t).drop 1, e.url = some t.link) ∧
     (send_to_discord_embeds t).filterMap Embed.image = t.images.take 4) ∧
    ((send_to_discord_embeds_v4 pd t4).length = 4 ∧
     (∀ e ∈ (send_to_discord_embeds_v4 pd t4).drop 1, e.url = some t4.link) ∧
     (send_to_discord_embeds_v4 pd t4).filterMap Embed.image = t4.images.take 4) := by
  obtain ⟨a, b, c, d, e, r, himg⟩ := exists_five_of_length t.images h5
  have hb : truthy b = true := hne b (by rw [himg]; simp)
  have hc : truthy c = true := hne c (by rw [himg]; simp)
  have hd : truthy d = true := hne d (by rw [himg]; simp)
  obtain ⟨a4, b4, c4, d4, e4, r4, himg4⟩ := exists_five_of_length t4.images h5v4
  have ha4 : starts_with_http a4 = true := hhttp a4 (by rw [himg4]; simp)
  have hb4 : starts_with_http b4 = true := hhttp b4 (by rw [himg4]; simp)
  have hc4 : starts_with_http c4 = true := hhttp c4 (by rw [himg4]; simp)
  have hd4 : starts_with_http d4 = true := hhttp d4 (by rw [himg4]; simp)
  constructor
  · refine ⟨?_, ?_, ?_⟩
    · simp [send_to_discord_embeds, v7_extra_embeds, himg, hb, hc, hd]
    · intro e' he'
      simp [send_to_discord_embeds, v7_extra_embeds, himg, hb, hc, hd] at he'
      rcases he' with rfl | rfl | rfl <;> rfl
    · simp [send_to_discord_embeds, v7_extra_embeds, v7_main_embed, himg, hb, hc, hd]
  · refine ⟨?_, ?_, ?_⟩
    · simp [send_to_discord_embeds_v4, create_additional_image_embeds, himg4,
        ha4, hb4, hc4, hd4]
    · intro e' he'
      simp [send_to_discord_embeds_v4, create_additional_image_embeds, himg4,
        ha4, hb4, hc4, hd4] at he'
      rcases he' with rfl | rfl | rfl <;> rfl
    · simp [send_to_discord_embeds_v4, create_additional_image_embeds,
        create_discord_embed, himg4, ha4, hb4, hc4, hd4]

theorem formatter_four_image_cap_witness :
    5 ≤ tweetW5.images.length ∧ (∀ u ∈ tweetW5.images, truthy u = true) ∧
    5 ≤ tweetV4W5.images.length ∧ (∀ u ∈ tweetV4W5.images, starts_with_http u = true) ∧
    (((send_to_discord_embeds tweetW5).length = 4 ∧
      (∀ e ∈ (send_to_discord_embeds tweetW5).drop 1, e.url = some tweetW5.link) ∧
      (send_to_discord_embeds tweetW5).filterMap Embed.image = tweetW5.images.take 4) ∧
     ((send_to_discord_embeds_v4 (fun _ => none) tweetV4W5).length = 4 ∧
      (∀ e ∈ (send_to_discord_embeds_v4 (fun _ => none) tweetV4W5).drop 1,
        e.url = some tweetV4W5.link) ∧
      (send_to_discord_embeds_v4 (fun _ => none) tweetV4W5).filterMap Embed.image =
        tweetV4W5.images.take 4)) :=
  ⟨by decide, by decide, by decide, by decide,
   formatter_four_image_cap tweetW5 (fun _ => none) tweetV4W5
     (by decide) (by decide) (by decide) (by decide)⟩

/-- C8 counterexample: on the concrete post `tweetW0` (empty text, no
media), the Delivery Formatter of `test_embed.py` emits a single message
whose body is the empty string, not a non-empty placeholder. -/
theorem formatter_placeholder_counterexample :
    ∃ e, send_to_discord_embeds tweetW0 = [e] ∧ e.description = some "" := by
  refine ⟨v7_main_embed tweetW0, ?_, ?_⟩ <;> rfl

/-- C8 (amended): formatting a well-formed post cannot fail — both
formatters always return between 1 and 10 messages; on a post with empty
text and no media the v4 formatter (`create_discord_embed` of
`twitter_to_discord.py`) produces a single message with the non-empty
placeholder body "No text content", while the v7 formatter
(`send_to_discord` of `test_embed.py`) produces a single message whose
body is the empty string. -/
theorem formatter_total_empty_text :
    (∀ t : Tweet, 1 ≤ (send_to_discord_embeds t).length ∧
      (send_to_discord_embeds t).length ≤ 10) ∧
    (∀ (pd : String → Option String) (t4 : TweetV4),
      1 ≤ (send_to_discord_embeds_v4 pd t4).length ∧
      (send_to_discord_embeds_v4 pd t4).length ≤ 10) ∧
    (∀ (pd : String → Option String) (t4 : TweetV4), t4.text = "" → t4.images = [] →
      send_to_discord_embeds_v4 pd t4 = [create_discord_embed pd t4] ∧
      (create_discord_embed pd t4).description = some "No text content") ∧
    (∀ t : Tweet, t.text = "" → t.images = [] → t.video_url = none →
      send_to_discord_embeds t = [v7_main_embed t] ∧
      (v7_main_embed t).description = some "") := by
  refine ⟨fun t => ?_, fun pd t4 => ?_, fun pd t4 ht hi => ?_, fun t ht hi hv => ?_⟩
  · simp only [send_to_discord_embeds, List.length_take, List.length_cons]
    omega
  · simp only [send_to_discord_embeds_v4, List.length_take, List.length_cons]
    omega
  · constructor
    · simp [send_to_discord_embeds_v4, create_additional_image_embeds, hi]
    · simp [create_discord_embed, ht, truthy]
  · constructor
    · simp [send_to_discord_embeds, v7_extra_embeds, hi]
    · simp [v7_main_embed, v7_body_text, ht, hv]

theorem formatter_total_empty_text_witness :
    tweetV4W0.text = "" ∧ tweetV4W0.images = [] ∧
    (send_to_discord_embeds_v4 (fun _ => none) tweetV4W0 =
      [create_discord_embed (fun _ => none) tweetV4W0] ∧
     (create_discord_embed (fun _ => none) tweetV4W0).description = some "No text content") :=
  ⟨rfl, rfl, formatter_total_empty_text.2.2.1 (fun _ => none) tweetV4W0 rfl rfl⟩

/-- Folding `insert` over a list (the `for tid in tweet_ids: seen.add(tid)`
loop) is union with the list's finset. -/
theorem foldl_insert_eq_union (l : List String) (s : Finset String) :
    l.foldl (fun acc tid => insert tid acc) s = s ∪ l.toFinset := by
  induction l generalizing s with
  | nil => simp
  | cons a l ih =>
    simp only [List.foldl_cons, ih, List.toFinset_cons]
    ext x
    simp

/-- `deliver_one` inserts the processed id whatever the resolve outcome. -/
theorem deliver_one_seen (inp : CycleInput) (seen : Finset String) (tid : String) :
    (deliver_one inp seen tid).1 = insert tid seen := by
  rcases hdet : get_tweet_details tid (inp.details tid) inp.strp with _ | tw <;>
    simp [deliver_one, hdet]

/-- The delivery loop adds exactly the processed ids to the seen set. -/
theorem deliver_loop_seen (inp : CycleInput) (seen : Finset String) (l : List String) :
    (deliver_loop inp seen l).1 = seen ∪ l.toFinset := by
  induction l generalizing seen with
  | nil => simp [deliver_loop]
  | cons a l ih =>
    simp only [deliver_loop]
    rw [deliver_one_seen, ih]
    ext x
    simp

/-- Every processed id gives rise to a resolver-call event. -/
theorem deliver_one_resolve (inp : CycleInput) (seen : Finset String) (tid : String) :
    Event.resolveCall tid ∈ (deliver_one inp seen tid).2 := by
  rcases hdet : get_tweet_details tid (inp.details tid) inp.strp with _ | tw <;>
    simp [deliver_one, hdet]

/-- Every processed id gives rise to a persist event. -/
theorem deliver_one_persist (inp : CycleInput) (seen : Finset String) (tid : String) :
    Event.persist ∈ (deliver_one inp seen tid).2 := by
  rcases hdet : get_tweet_details tid (inp.details tid) inp.strp with _ | tw <;>
    simp [deliver_one, hdet]

/-- The per-id delivery step never emits a bootstrap event. -/
theorem deliver_one_no_bootstrap (inp : CycleInput) (seen : Finset String) (tid : String) :
    ∀ e ∈ (deliver_one inp seen tid).2, is_bootstrap e = false := by
  intro e he
  rcases hdet : get_tweet_details tid (inp.details tid) inp.strp with _ | tw
  · simp [deliver_one, hdet] at he
    rcases he with rfl | rfl <;> rfl
  · simp [deliver_one, hdet] at he
    rcases he with rfl | rfl | rfl <;> rfl

/-- Every id of the delivery loop's input is resolved. -/
theorem deliver_loop_resolve (inp : CycleInput) (seen : Finset String) (l : List String) :
    ∀ tid ∈ l, Event.resolveCall tid ∈ (deliver_loop inp seen l).2 := by
  induction l generalizing seen with
  | nil => intro tid h; cases h
  | cons a rest ih =>
    intro tid h
    simp only [deliver_loop, List.mem_append]
    rcases List.mem_cons.mp h with rfl | hmem
    · exact Or.inl (deliver_one_resolve inp seen tid)
    · exact Or.inr (ih _ tid hmem)

/-- A non-empty delivery loop persists the seen set. -/
theorem deliver_loop_persist (inp : CycleInput) (seen : Finset String) (l : List String)
    (h : l ≠ []) : Event.persist ∈ (deliver_loop inp seen l).2 := by
  cases l with
  | nil => exact absurd rfl h
  | cons a rest =>
    simp only [deliver_loop, List.mem_append]
    exact Or.inl (deliver_one_persist inp seen a)

/-- The delivery loop never emits a bootstrap event. -/
theorem deliver_loop_no_bootstrap (inp : CycleInput) (seen : Finset String) (l : List String) :
    ∀ e ∈ (deliver_loop inp seen l).2, is_bootstrap e = false := by
  induction l generalizing seen with
  | nil => intro e he; cases he
  | cons a rest ih =>
    intro e he
    simp only [deliver_loop, List.mem_append] at he
    rcases he with he | he
    · exact deliver_one_no_bootstrap inp seen a e he
    · exact ih _ e he

/-- A cycle only ever adds to the seen set. -/
theorem runCycle_seen_subset (s : BotState) (inp : CycleInput) :
    s.seen ⊆ (runCycle s inp).1.seen := by
  simp only [runCycle]
  split
  · exact Finset.Subset.refl _
  · split
    · intro x hx
      simp only [foldl_insert_eq_union]
      exact Finset.mem_union_left _ hx
    · split
      · exact Finset.Subset.refl _
      · intro x hx
        simp only [deliver_loop_seen]
        exact Finset.mem_union_left _ hx

/-- A whole run only ever adds to the seen set. -/
theorem run_cycles_seen_subset (inps : List CycleInput) (s : BotState) :
    s.seen ⊆ (run_cycles s inps).1.seen := by
  induction inps generalizing s with
  | nil => exact Finset.Subset.refl _
  | cons inp rest ih =>
    simp only [run_cycles]
    exact Finset.Subset.trans (runCycle_seen_subset s inp) (ih (runCycle s inp).1)

/-- C7: the seen set is monotone — it is a subset of its value after any
single cycle and after any sequence of cycles, so its size never
decreases. -/
theorem seen_set_monotone (s : BotState) (inp : CycleInput) (inps : List CycleInput) :
    s.seen ⊆ (runCycle s inp).1.seen ∧
    s.seen ⊆ (run_cycles s inps).1.seen ∧
    s.seen.card ≤ (run_cycles s inps).1.seen.card :=
  ⟨runCycle_seen_subset s inp, run_cycles_seen_subset inps s,
   Finset.card_le_card (run_cycles_seen_subset inps s)⟩

theorem seen_set_monotone_witness :
    stateW.seen ⊆ (runCycle stateW inpW).1.seen ∧
    stateW.seen ⊆ (run_cycles stateW [inpW]).1.seen ∧
    stateW.seen.card ≤ (run_cycles stateW [inpW]).1.seen.card :=
  seen_set_monotone stateW inpW [inpW]

/-- C2: on a cycle whose seen set starts empty with the first-run flag
set, when the chain returns a non-empty list of distinct ids, the cycle
ends with the seen set equal to exactly those ids (of full cardinality),
and the trace shows a bootstrap and a persist only — no webhook send and
no Detail Resolver call. -/
theorem run_bootstrap_invariant (s : BotState) (inp : CycleInput) (ids : List String)
    (hids : get_tweet_ids inp.adapters = ids) (hne : ids ≠ []) (hnd : ids.Nodup)
    (hseen : s.seen = ∅) (hfr : s.first_run = true) :
    (runCycle s inp).1.seen = ids.toFinset ∧
    (runCycle s inp).1.seen.card = ids.length ∧
    (runCycle s inp).2 = [Event.bootstrap ids, Event.persist] ∧
    ∀ e ∈ (runCycle s inp).2,
      (∀ i p ok, e ≠ Event.send i p ok) ∧ (∀ i, e ≠ Event.resolveCall i) := by
  have hrun : runCycle s inp =
      ({ seen := ids.toFinset, first_run := false }, [Event.bootstrap ids, Event.persist]) := by
    simp only [runCycle, hids, hfr, if_true]
    rw [if_neg hne]
    simp [foldl_insert_eq_union, hseen]
  rw [hrun]
  refine ⟨rfl, List.toFinset_card_of_nodup hnd, rfl, ?_⟩
  intro e he
  fin_cases he <;> refine ⟨fun i p ok h => ?_, fun i h => ?_⟩ <;> simp at h

theorem run_bootstrap_invariant_witness :
    get_tweet_ids inpW.adapters = ["3333333333333", "1111111111111"] ∧
    (["3333333333333", "1111111111111"] : List String) ≠ [] ∧
    (["3333333333333", "1111111111111"] : List String).Nodup ∧
    stateW0.seen = ∅ ∧ stateW0.first_run = true ∧
    ((runCycle stateW0 inpW).1.seen =
        (["3333333333333", "1111111111111"] : List String).toFinset ∧
     (runCycle stateW0 inpW).1.seen.card =
        (["3333333333333", "1111111111111"] : List String).length ∧
     (runCycle stateW0 inpW).2 =
        [Event.bootstrap ["3333333333333", "1111111111111"], Event.persist] ∧
     ∀ e ∈ (runCycle stateW0 inpW).2,
       (∀ i p ok, e ≠ Event.send i p ok) ∧ (∀ i, e ≠ Event.resolveCall i)) :=
  ⟨rfl, by decide, by decide, rfl, rfl,
   run_bootstrap_invariant stateW0 inpW ["3333333333333", "1111111111111"]
     rfl (by decide) (by decide) rfl rfl⟩

/-- In a delivering cycle of the v7 loop (first-run flag off, at least
one new id), even when the webhook rejects the send for a new id, that
id ends up in the seen set, the seen set is persisted, and every new id
of the cycle — including those after the failed one — still gets its
Detail Resolver call. -/
theorem run_send_failure_marks_seen (s : BotState) (inp : CycleInput) (tid : String)
    (hfr : s.first_run = false)
    (hmem : tid ∈ (get_tweet_ids inp.adapters).filter (fun t => decide (t ∉ s.seen)))
    (hfail : inp.send_ok tid = false) :
    tid ∈ (runCycle s inp).1.seen ∧
    Event.persist ∈ (runCycle s inp).2 ∧
    ∀ t' ∈ (get_tweet_ids inp.adapters).filter (fun t => decide (t ∉ s.seen)),
      Event.resolveCall t' ∈ (runCycle s inp).2 := by
  have hne : (get_tweet_ids inp.adapters).filter (fun t => decide (t ∉ s.seen)) ≠ [] := by
    intro h
    rw [h] at hmem
    cases hmem
  have htids : get_tweet_ids inp.adapters ≠ [] := by
    intro h
    rw [h] at hne
    exact hne rfl
  set nl := (get_tweet_ids inp.adapters).filter (fun t => decide (t ∉ s.seen)) with hnl
  have hrun : runCycle s inp =
      ({ seen := (deliver_loop inp s.seen nl.reverse).1, first_run := s.first_run },
       (deliver_loop inp s.seen nl.reverse).2) := by
    simp only [runCycle, hfr]
    rw [if_neg htids]
    simp only [Bool.false_eq_true, if_false]
    rw [if_neg hne]
  refine ⟨?_, ?_, ?_⟩
  · rw [hrun]
    simp only [deliver_loop_seen]
    refine Finset.mem_union_right _ ?_
    rw [List.mem_toFinset, List.mem_reverse]
    exact hmem
  · rw [hrun]
    exact deliver_loop_persist inp s.seen _ (by simpa using hne)
  · intro t' ht'
    rw [hrun]
    exact deliver_loop_resolve inp s.seen _ t' (List.mem_reverse.mpr ht')

theorem run_send_failure_marks_seen_witness :
    stateW.first_run = false ∧
    "3333333333333" ∈ (get_tweet_ids inpW.adapters).filter
      (fun t => decide (t ∉ stateW.seen)) ∧
    inpW.send_ok "3333333333333" = false ∧
    ("3333333333333" ∈ (runCycle stateW inpW).1.seen ∧
     Event.persist ∈ (runCycle stateW inpW).2 ∧
     ∀ t' ∈ (get_tweet_ids inpW.adapters).filter (fun t => decide (t ∉ stateW.seen)),
       Event.resolveCall t' ∈ (runCycle stateW inpW).2) :=
  ⟨rfl, by decide, rfl,
   run_send_failure_marks_seen stateW inpW "3333333333333" rfl (by decide) rfl⟩

/-- A cycle with the first-run flag off emits no bootstrap event and
keeps the flag off. -/
theorem runCycle_first_run_false (s : BotState) (inp : CycleInput)
    (h : s.first_run = false) :
    (runCycle s inp).1.first_run = false ∧
    ∀ e ∈ (runCycle s inp).2, is_bootstrap e = false := by
  simp only [runCycle, h]
  split
  · exact ⟨h, by intro e he; cases he⟩
  · simp only [Bool.false_eq_true, if_false]
    split
    · exact ⟨h, by intro e he; cases he⟩
    · exact ⟨rfl, deliver_loop_no_bootstrap inp s.seen _⟩

/-- A cycle with the first-run flag on is either a no-op (empty fetch) or
performs the bootstrap and clears the flag. -/
theorem runCycle_first_run_true (s : BotState) (inp : CycleInput)
    (h : s.first_run = true) :
    (runCycle s inp = (s, [])) ∨
    ((runCycle s inp).1.first_run = false ∧
     (runCycle s inp).2 = [Event.bootstrap (get_tweet_ids inp.adapters), Event.persist]) := by
  simp only [runCycle, h, if_true]
  split
  · exact Or.inl rfl
  · exact Or.inr ⟨rfl, rfl⟩

/-- Over any run, the number of bootstrap passes is bounded by the
initial first-run flag. -/
theorem run_cycles_bootstrap_bound (inps : List CycleInput) (s : BotState) :
    (run_cycles s inps).2.countP is_bootstrap ≤ (if s.first_run then 1 else 0) := by
  induction inps generalizing s with
  | nil => simp [run_cycles]
  | cons inp rest ih =>
    simp only [run_cycles, List.countP_append]
    by_cases h : s.first_run = true
    · rcases runCycle_first_run_true s inp h with heq | ⟨hfr, hev⟩
      · rw [heq]
        simpa [h] using le_trans (ih s) (by simp [h])
      · rw [hev]
        have hrest := ih (runCycle s inp).1
        rw [hfr] at hrest
        simp only [Bool.false_eq_true, if_false, Nat.le_zero] at hrest
        simp [h, is_bootstrap, List.countP_cons, hrest]
    · have hf : s.first_run = false := by simpa using h
      obtain ⟨hfr, hnb⟩ := runCycle_first_run_false s inp hf
      have h1 : (runCycle s inp).2.countP is_bootstrap = 0 :=
        List.countP_eq_zero.mpr (fun e he => by simp [hnb e he])
      have hrest := ih (runCycle s inp).1
      rw [hfr] at hrest
      simp only [Bool.false_eq_true, if_false, Nat.le_zero] at hrest
      simp [hf, h1, hrest]

/-- C10: the first-run flag is set at startup exactly when the loaded
seen set is empty; a cycle whose fetch is empty is a no-op, leaving the
flag untouched; a cycle with the flag on and a non-empty fetch performs
the bootstrap and clears the flag; and across any sequence of cycles the
bootstrap pass executes at most once. -/
theorem first_run_bootstrap_once (f : Option (Option (List String))) (s : BotState)
    (inp : CycleInput) (inps : List CycleInput) :
    ((init_state f).first_run = true ↔ load_seen_tweets f = ∅) ∧
    (get_tweet_ids inp.adapters = [] → runCycle s inp = (s, [])) ∧
    (s.first_run = true → get_tweet_ids inp.adapters ≠ [] →
      (runCycle s inp).1.first_run = false ∧
      (runCycle s inp).2 = [Event.bootstrap (get_tweet_ids inp.adapters), Event.persist]) ∧
    (run_cycles s inps).2.countP is_bootstrap ≤ 1 := by
  refine ⟨?_, fun h => ?_, fun hfr hne => ?_, ?_⟩
  · simp [init_state, Finset.card_eq_zero]
  · simp [runCycle, h]
  · simp only [runCycle, hfr, if_true]
    rw [if_neg hne]
    exact ⟨rfl, rfl⟩
  · exact le_trans (run_cycles_bootstrap_bound inps s) (by split <;> omega)

theorem first_run_bootstrap_once_witness :
    ((init_state (some (some []))).first_run = true ↔
      load_seen_tweets (some (some [])) = ∅) ∧
    (stateW0.first_run = true ∧ get_tweet_ids inpW.adapters ≠ [] ∧
     (runCycle stateW0 inpW).1.first_run = false ∧
     (runCycle stateW0 inpW).2 =
       [Event.bootstrap (get_tweet_ids inpW.adapters), Event.persist]) ∧
    (run_cycles stateW0 [inpW]).2.countP is_bootstrap ≤ 1 := by
  refine ⟨(first_run_bootstrap_once (some (some [])) stateW0 inpW [inpW]).1,
    ⟨rfl, by decide, ?_⟩,
    (first_run_bootstrap_once (some (some [])) stateW0 inpW [inpW]).2.2.2⟩
  exact (first_run_bootstrap_once (some (some [])) stateW0 inpW [inpW]).2.2.1 rfl (by decide)

/-- C9: persisting the seen set never propagates an exception and leaves
the in-memory set unchanged, for every filesystem outcome. -/
theorem save_seen_tweets_no_raise (seen : Finset String) (fileBefore : Option (Finset String))
    (w : WriteOutcome) :
    (save_seen_tweets seen fileBefore w).2.1 = seen ∧
    (save_seen_tweets seen fileBefore w).2.2 = none := by
  cases w <;> exact ⟨rfl, rfl⟩

theorem save_seen_tweets_no_raise_witness :
    (save_seen_tweets {"1111111111111"} none (WriteOutcome.failed "disk full")).2.1 =
      {"1111111111111"} ∧
    (save_seen_tweets {"1111111111111"} none (WriteOutcome.failed "disk full")).2.2 = none :=
  save_seen_tweets_no_raise {"1111111111111"} none (WriteOutcome.failed "disk full")

/-- C3 counterexample: the RSS parser of `twitter_to_discord.py` emits
the identifier "photo" — letters, digit-stripped length 0 — from a link
ending in a `/status/photo` segment, so the claim as stated fails on
that cited variant. -/
theorem parse_rss_ids_letters_counterexample :
    "photo" ∈ parse_rss_ids_v4 ∅
      (some [some "https://nitter.net/SoJ_Global/status/photo"]) ∧
    ¬("photo".data.all Char.isDigit = true ∧ 5 < "photo".length) := by
  constructor <;> decide

/-- C3 (amended): every identifier emitted by the RSS identifier
extractor of `test_embed.py` (`parse_rss_ids`) is all-digits with length
greater than 5 — candidates whose digit-stripped form has length at most
5 are excluded; the RSS parser of `twitter_to_discord.py` (`parse_rss`)
instead emits the link's raw last path segment with the fragment
stripped — no digit stripping and no length check, only a seen-set
check. -/
theorem parse_rss_ids_variants (doc : Option (List (Option String)))
    (seen : Finset String) (tid : String) :
    (tid ∈ parse_rss_ids doc → tid.data.all Char.isDigit = true ∧ 5 < tid.length) ∧
    (tid ∈ parse_rss_ids_v4 seen doc →
      tid ∉ seen ∧ ∃ l items, doc = some items ∧ some l ∈ items.take 10 ∧
        tid = extract_tweet_id_v4 l) := by
  refine ⟨parse_rss_ids_digits_gt5 doc tid, fun h => ?_⟩
  match doc with
  | none => simp [parse_rss_ids_v4] at h
  | some items =>
    simp only [parse_rss_ids_v4, List.mem_filterMap] at h
    obtain ⟨l?, hmem, hid⟩ := h
    match l? with
    | none => simp at hid
    | some l =>
      simp only [Option.some_bind] at hid
      split at hid
      next => exact absurd hid (by simp)
      next hnotseen =>
        obtain rfl := Option.some.inj hid
        exact ⟨hnotseen, l, items, rfl, hmem, rfl⟩

theorem parse_rss_ids_variants_witness :
    ("1234567890" ∈ parse_rss_ids
      (some [some "https://nitter.net/SoJ_Global/status/1234567890#m"]) ∧
     ("1234567890".data.all Char.isDigit = true ∧ 5 < "1234567890".length)) ∧
    ("photo" ∈ parse_rss_ids_v4 ∅
      (some [some "https://nitter.net/SoJ_Global/status/photo"]) ∧
     ("photo" ∉ (∅ : Finset String) ∧
      ∃ l items,
        (some [some "https://nitter.net/SoJ_Global/status/photo"] :
          Option (List (Option String))) = some items ∧
        some l ∈ items.take 10 ∧ "photo" = extract_tweet_id_v4 l)) := by
  refine ⟨⟨by decide, ?_⟩, ⟨by decide, ?_⟩⟩
  · exact (parse_rss_ids_variants
      (some [some "https://nitter.net/SoJ_Global/status/1234567890#m"]) ∅
      "1234567890").1 (by decide)
  · exact (parse_rss_ids_variants
      (some [some "https://nitter.net/SoJ_Global/status/photo"]) ∅ "photo").2 (by decide)

/-- C1: evaluation at the failing input — a delivering cycle fetching
the single new id "3333333333333" with the webhook rejecting every send
(HTTP 500, so `send_to_discord` returns False).  The v4 loop
(`twitter_to_discord.py`) records the failed send but leaves the id out
of the seen set and never persists — the add and persist sit inside
`if self.send_to_discord(tweet):` — while the v7 loop (`test_embed.py`),
which implements the specified policy, still marks the id as seen,
persists, and gave it its resolver call. -/
theorem run_send_failure_divergence :
    (stateW.first_run = false ∧
     inpWV4.send_ok tweetV4New = false ∧
     Event.send tweetV4New.id (send_to_discord_embeds_v4 inpWV4.pd tweetV4New) false ∈
       (runCycleV4 stateW inpWV4).2 ∧
     tweetV4New.id ∉ (runCycleV4 stateW inpWV4).1.seen ∧
     Event.persist ∉ (runCycleV4 stateW inpWV4).2) ∧
    (inpW.send_ok "3333333333333" = false ∧
     "3333333333333" ∈ (runCycle stateW inpW).1.seen ∧
     Event.persist ∈ (runCycle stateW inpW).2 ∧
     Event.resolveCall "3333333333333" ∈ (runCycle stateW inpW).2) := by
  refine ⟨⟨rfl, rfl, ?_, ?_, ?_⟩, rfl, ?_, ?_, ?_⟩ <;> decide

end TwitterToDiscord
